import Mathlib

/-
  Verification of the GoFlow staged-pipeline simulator core.

  Shallow embedding of the simulator package at its newest revision
  (simulator.go with Start(choice), stage.go with the lowercase
  stageMetrics calls, metrics.go with the guarded GetStats), together
  with the older processItem revision where a claim cites it.

  Items are opaque to the engine, so they are modelled as Nat; user
  errors are likewise modelled as Nat.  time.Sleep calls have no effect
  on any counter or channel and are therefore not modelled.
-/

namespace GoFlow

/-! ## Retry loop: processItem (stage.go) -/

/-- One user worker invocation per attempt, indexed by the 0-based
attempt number: ok is a success, error a failure. -/
abbrev WorkerFn := Nat → Except Nat Nat

/-- Newest revision of the retry loop (stage.go, revision with
the exit condition written as attempt == RetryCount).  The loop body
calls WorkerFunc, returns on success, otherwise increments attempt and
breaks exactly when attempt equals RetryCount, returning the last
error.  Fuel bounds the number of iterations we unfold; none means the
loop is still running after that many iterations. -/
def processItemLoop (wf : WorkerFn) (retryCount : Int) :
    Nat → Nat → Option (Except Nat Nat)
  | 0, _ => none
  | fuel + 1, attempt =>
    match wf attempt with
    | Except.ok r => some (Except.ok r)
    | Except.error e =>
      if ((attempt + 1 : Nat) : Int) = retryCount then some (Except.error e)
      else processItemLoop wf retryCount fuel (attempt + 1)

/-- processItem of the newest stage.go revision: run the retry loop
starting at attempt 0. -/
def processItem (wf : WorkerFn) (retryCount : Int) (fuel : Nat) :
    Option (Except Nat Nat) :=
  processItemLoop wf retryCount fuel 0

/-- Older revision of the retry loop (stage.go lines 210-233): the exit
condition is attempt > RetryCount, giving one initial attempt plus
RetryCount retries. -/
def processItemPrevLoop (wf : WorkerFn) (retryCount : Int) :
    Nat → Nat → Option (Except Nat Nat)
  | 0, _ => none
  | fuel + 1, attempt =>
    match wf attempt with
    | Except.ok r => some (Except.ok r)
    | Except.error e =>
      if ((attempt + 1 : Nat) : Int) > retryCount then some (Except.error e)
      else processItemPrevLoop wf retryCount fuel (attempt + 1)

/-- processItem of the older stage.go revision. -/
def processItemPrev (wf : WorkerFn) (retryCount : Int) (fuel : Nat) :
    Option (Except Nat Nat) :=
  processItemPrevLoop wf retryCount fuel 0

/-! ## Output send with backpressure (sendOutput / handleGeneration) -/

/-- Events visible to a producer while it is parked on its bare
blocking send: the simulator cancels the context, a buffer slot opens
(or a receiver arrives), or the output channel is closed. -/
inductive Ev
  | cancel
  | slotOpens
  | chanCloses
deriving DecidableEq

/-- Outcome of one send attempt: which counter the stage records.
blocked means the send never completes within the given schedule. -/
inductive SendResult
  | output
  | dropped
  | blocked
deriving DecidableEq

/-- The bare blocking send in the DropOnBackpressure = false branch
(the statement output <- result in the source).  It is not a select:
it can only complete when a slot opens (send succeeds, output is
recorded) or when the channel is closed (the send raises, the deferred
recover records dropped).  Cancellation events do not touch it. -/
def blockingSend : List Ev → SendResult
  | [] => SendResult.blocked
  | Ev.cancel :: rest => blockingSend rest
  | Ev.slotOpens :: _ => SendResult.output
  | Ev.chanCloses :: _ => SendResult.dropped

/-- sendOutput (stage.go): a select over ctx.Done and the send with a
default arm.  cancelled / slotFree say which arms are ready when the
select runs; when both are ready Go picks one at random, modelled by
the pick flag (pick = true chooses the ctx.Done arm).  If neither is
ready, the default arm runs: drop when DropOnBackpressure, otherwise
fall into the bare blocking send driven by the schedule.
handleGeneration contains the textually identical select for the
generator after recordGenerated. -/
def sendOutput (dropOnBp cancelled slotFree pick : Bool) (sched : List Ev) :
    SendResult :=
  if cancelled && slotFree then
    (if pick then SendResult.dropped else SendResult.output)
  else if cancelled then SendResult.dropped
  else if slotFree then SendResult.output
  else if dropOnBp then SendResult.dropped
  else blockingSend sched

/-- Second definition, written from the words of the specification for
comparison with the code: the blocking send is claimed to wait
simultaneously on the slot and on cancellation, so the first of
slot-opens / cancel decides the outcome. -/
def specBlockingSend : List Ev → SendResult
  | [] => SendResult.blocked
  | Ev.cancel :: _ => SendResult.dropped
  | Ev.slotOpens :: _ => SendResult.output
  | Ev.chanCloses :: _ => SendResult.dropped

/-! ## Per-item counter deltas for workers and generators -/

/-- How much one code path adds to each stage counter. -/
structure Delta where
  generated : Nat
  processed : Nat
  output : Nat
  dropped : Nat
deriving DecidableEq

/-- Componentwise sum of two deltas. -/
def Delta.plus (a b : Delta) : Delta :=
  ⟨a.generated + b.generated, a.processed + b.processed,
   a.output + b.output, a.dropped + b.dropped⟩

/-- Body of the worker loop for one received item (stage.go, newest
revision): a final stage records the item as dropped without invoking
the user function; an interior stage runs processItem, records dropped
on final failure, and on success records processed and runs sendOutput,
which records either output or dropped.  none means the worker is still
stuck (retry loop out of fuel, or blocked forever in the send). -/
def workerItem (isFinal dropOnBp cancelled slotFree pick : Bool)
    (sched : List Ev) (wf : WorkerFn) (retryCount : Int) (fuel : Nat) :
    Option Delta :=
  if isFinal then some ⟨0, 0, 0, 1⟩
  else
    match processItem wf retryCount fuel with
    | none => none
    | some (Except.error _) => some ⟨0, 0, 0, 1⟩
    | some (Except.ok _) =>
      match sendOutput dropOnBp cancelled slotFree pick sched with
      | SendResult.output => some ⟨0, 1, 1, 0⟩
      | SendResult.dropped => some ⟨0, 1, 0, 1⟩
      | SendResult.blocked => none

/-- Behaviour of one ItemGenerator call: it either panics (abnormal
termination of the user closure) or returns an item. -/
inductive GenOutcome
  | panics
  | value (item : Nat)
deriving DecidableEq

/-- Environment of one generator loop iteration. -/
structure GenEnv where
  gen : Option GenOutcome
  cancelled : Bool
  slotFree : Bool
  pick : Bool
  sched : List Ev
deriving DecidableEq

/-- handleGeneration (stage.go, newest revision) for one iteration:
a nil ItemGenerator returns without recording anything; a panicking
ItemGenerator is caught by the deferred recover, which records dropped
(recordGenerated was never reached); otherwise recordGenerated runs and
the select sends the item exactly as in sendOutput. -/
def handleGeneration (genFn : Option GenOutcome)
    (dropOnBp cancelled slotFree pick : Bool) (sched : List Ev) :
    Option Delta :=
  match genFn with
  | none => some ⟨0, 0, 0, 0⟩
  | some GenOutcome.panics => some ⟨0, 0, 0, 1⟩
  | some (GenOutcome.value _) =>
    match sendOutput dropOnBp cancelled slotFree pick sched with
    | SendResult.output => some ⟨1, 0, 1, 0⟩
    | SendResult.dropped => some ⟨1, 0, 0, 1⟩
    | SendResult.blocked => none

/-- A completed generator run: the summed deltas of its iterations,
none when some iteration never completed. -/
def runGenerator (dropOnBp : Bool) : List GenEnv → Option Delta
  | [] => some ⟨0, 0, 0, 0⟩
  | e :: rest =>
    match handleGeneration e.gen dropOnBp e.cancelled e.slotFree e.pick e.sched,
        runGenerator dropOnBp rest with
    | some d, some ds => some (d.plus ds)
    | _, _ => none

/-- 1 when this iteration's ItemGenerator call panicked, else 0. -/
def panicCount (g : Option GenOutcome) : Nat :=
  match g with
  | some GenOutcome.panics => 1
  | _ => 0

/-- Number of iterations of a run in which the ItemGenerator panicked. -/
def countPanics (envs : List GenEnv) : Nat :=
  (envs.map (fun e => panicCount e.gen)).sum

/-! ## Stage termination protocol (stageTermination, stage.go) -/

/-- Shared per-stage termination state: the one-capacity sem channel
(semFree is true while nothing has been sent into it), how many times
close(output) and metrics.stop() have run, and how many wg.Done calls
have been made.  Each stageTermination call runs its non-blocking
try-send atomically, so a run of the protocol is a sequence of calls. -/
structure TermState where
  semFree : Bool
  closeCalls : Nat
  stopCalls : Nat
  wgDones : Nat
deriving DecidableEq

/-- State before any worker of the stage has exited. -/
def initTermState : TermState := ⟨true, 0, 0, 0⟩

/-- stageTermination (stage.go, newest revision): try to send into the
one-capacity sem; the claimant (the one whose try-send succeeds) closes
the output channel and stops the metrics, everyone else skips both, and
every caller runs wg.Done() after the select. -/
def stageTermination (st : TermState) : TermState :=
  if st.semFree then
    ⟨false, st.closeCalls + 1, st.stopCalls + 1, st.wgDones + 1⟩
  else
    { st with wgDones := st.wgDones + 1 }

/-- The termination state after k workers of the stage have exited. -/
def runTerminations : Nat → TermState
  | 0 => initTermState
  | k + 1 => stageTermination (runTerminations k)

/-! ## StageMetrics (metrics.go, newest revision) -/

/-- stageMetrics: the four counters and the start/stop timestamps.
Timestamps are rationals (seconds); endTime none models the zero
time.Time before stop() has run. -/
structure MetricsState where
  processedItems : Nat
  droppedItems : Nat
  outputItems : Nat
  startTime : ℚ
  endTime : Option ℚ
  generatedItems : Nat
deriving DecidableEq

/-- stop() (metrics.go lines 41-45): unconditionally overwrite endTime
with the current time. -/
def MetricsState.stop (m : MetricsState) (now : ℚ) : MetricsState :=
  { m with endTime := some now }

/-- Values stored in the stats map: Go uint64 counters and float64
derived rates (rates modelled as rationals). -/
inductive StatVal
  | n (v : Nat)
  | q (v : ℚ)
deriving DecidableEq

/-- The stats map, as an association list with pairwise distinct keys. -/
abbrev StatsMap := List (String × StatVal)

/-- getCommons (metrics.go): duration is endTime - startTime, or
now - startTime while endTime is still zero; throughput is
output / duration when the duration is positive, else zero. -/
def getCommons (m : MetricsState) (now : ℚ) : StatsMap :=
  let duration : ℚ :=
    match m.endTime with
    | some e => e - m.startTime
    | none => now - m.startTime
  let throughput : ℚ :=
    if 0 < duration then (m.outputItems : ℚ) / duration else 0
  [("dropped_items", StatVal.n m.droppedItems),
   ("output_items", StatVal.n m.outputItems),
   ("throughput", StatVal.q throughput)]

/-- getEmpty (metrics.go lines 85-93): the all-zero map returned when
no generation and no processing happened. -/
def getEmpty : StatsMap :=
  [("processed_items", StatVal.n 0),
   ("dropped_items", StatVal.n 0),
   ("drop_rate", StatVal.q 0),
   ("throughput", StatVal.q 0),
   ("output_items", StatVal.n 0)]

/-- GetStats (metrics.go lines 48-83): a stage is treated as a
generator exactly when generatedItems > 0, in which case drop_rate is
dropped / generated (0 when dropped = 0) and generated_items is added;
otherwise, if processedItems = 0 the all-zero map is returned, else
drop_rate is dropped / processed and processed_items is added. -/
def GetStats (m : MetricsState) (now : ℚ) : StatsMap :=
  let commonMap := getCommons m now
  let drop := m.droppedItems
  if 0 < m.generatedItems then
    let dropRate : ℚ :=
      if 0 < drop then (drop : ℚ) / (m.generatedItems : ℚ) else 0
    commonMap ++
      [("generated_items", StatVal.n m.generatedItems),
       ("drop_rate", StatVal.q dropRate)]
  else
    if m.processedItems = 0 then getEmpty
    else
      commonMap ++
        [("processed_items", StatVal.n m.processedItems),
         ("drop_rate", StatVal.q ((drop : ℚ) / (m.processedItems : ℚ)))]

/-! ## Stage configuration and validation (config.go / stage.go) -/

/-- StageConfig (config.go).  The two function-valued fields and the
context are modelled by their nil-ness, which is all validation and the
claims inspect; durations and counts are Go ints. -/
structure StageConfig where
  inputRate : Int
  hasItemGenerator : Bool
  routineNum : Int
  bufferSize : Int
  workerDelay : Int
  retryCount : Int
  dropOnBackpressure : Bool
  hasWorkerFunc : Bool
  hasCtx : Bool
deriving DecidableEq

/-- validateConfig (stage.go, newest revision, the variant exempting
the final stage from the worker-function requirement): the checks in
source order, returning the first failure message or none. -/
def validateConfig (isGenerator isFinal : Bool) (name : String)
    (cfg : StageConfig) : Option String :=
  if (!isGenerator && !isFinal) && !cfg.hasWorkerFunc then
    some ("worker function must be set for non-generator stages")
  else if isGenerator && !cfg.hasItemGenerator then
    some ("ItemGenerator must be set for generator stage")
  else if cfg.routineNum ≤ 0 then
    some ("routine number must be greater than 0")
  else if cfg.bufferSize < 0 then
    some ("buffer size cannot be negative")
  else if isGenerator && cfg.inputRate < 0 then
    some ("input rate cannot be negative for generator stages")
  else if cfg.retryCount < 0 then
    some ("retry count cannot be negative")
  else if !cfg.hasCtx then
    some ("context must not be nil")
  else if name = "" then
    some ("stage name cannot be empty")
  else none

/-! ## Simulator Start (simulator.go, newest revision) -/

/-- A stage as the simulator sees it before start: its name and its
configuration. -/
structure StageRec where
  name : String
  config : StageConfig
deriving DecidableEq

/-- The per-stage loop of initializeStages from position i: stage 0 is
the generator and stage total-1 the final stage; each stage is
validated and, on success, its RoutineNum workers are spawned; the
first validation failure stops the loop.  Returns the failure (if any)
and how many workers were spawned in total. -/
def initStagesFrom (total : Nat) : Nat → List StageRec → Option String × Nat
  | _, [] => (none, 0)
  | i, st :: rest =>
    match validateConfig (i = 0) (i = total - 1) st.name st.config with
    | some e => (some e, 0)
    | none =>
      let r := initStagesFrom total (i + 1) rest
      (r.1, st.config.routineNum.toNat + r.2)

/-- Start (simulator.go, newest revision): with fewer than three stages
it returns the configuration error at once; otherwise it runs
initializeStages, wrapping a validation failure.  The result pairs the
returned error with the number of workers spawned before returning.
The post-spawn coordination (duration timer, wait-group wait, quit,
reporting) follows only on the success path and is not modelled. -/
def startSim (stages : List StageRec) : Except String Unit × Nat :=
  if stages.length < 3 then (Except.error ("no stages to run"), 0)
  else
    match initStagesFrom stages.length 0 stages with
    | (some e, spawned) =>
      (Except.error ("failed to initialize stages: " ++ e), spawned)
    | (none, spawned) => (Except.ok (), spawned)

/-- A user worker function that always succeeds, returning 7. -/
def wfOk : WorkerFn := fun _ => Except.ok 7

/-- A user worker function that fails on every attempt. -/
def wfFail : WorkerFn := fun _ => Except.error 0

/-- A fully valid concrete interior-stage configuration. -/
def sampleConfig : StageConfig := ⟨0, true, 1, 1, 0, 0, false, true, true⟩

/-- A concrete sink configuration: no worker function set. -/
def sinkConfig : StageConfig := ⟨0, false, 1, 0, 0, 0, false, false, true⟩

/-- A metrics state that generated and processed nothing but holds
nonzero dropped and output counters. -/
def mZeroActivity : MetricsState := ⟨0, 5, 7, 0, none, 0⟩

/-! ## Theorems -/

/-- The newest retry loop never exits on a persistently failing worker
function when RetryCount = 0: the exit test attempt == RetryCount is
never true once attempt has been incremented past zero. -/
theorem processItemLoop_fail_zero_none :
    ∀ (fuel attempt : Nat), processItemLoop wfFail 0 fuel attempt = none := by
  intro fuel
  induction fuel with
  | zero => intro attempt; rfl
  | succ n ih =>
    intro attempt
    have hne : ¬ (((attempt + 1 : Nat) : Int) = 0) := by omega
    simp only [processItemLoop, wfFail, hne, if_false]
    exact ih (attempt + 1)

/-- Claim C1 (code bug exhibit).  The claim says processItem makes up
to RetryBudget + 1 attempts and with RetryBudget = 0 a single failure
is final.  On the newest revision (exit condition attempt == RetryCount)
this fails: with RetryCount = 0 and a worker function failing every
attempt, the loop never returns, for any amount of fuel.  The older
revision (exit condition attempt > RetryCount) behaves as claimed:
one attempt suffices and its error is returned. -/
theorem retry_budget_zero_diverges :
    (∀ fuel : Nat, processItem wfFail 0 fuel = none) ∧
    processItemPrev wfFail 0 1 = some (Except.error 0) := by
  constructor
  · intro fuel
    exact processItemLoop_fail_zero_none fuel 0
  · rfl

/-- Closed form of the termination-protocol state after k exits. -/
theorem runTerminations_eq :
    ∀ k : Nat, runTerminations k =
      if k = 0 then initTermState else ⟨false, 1, 1, k⟩ := by
  intro k
  induction k with
  | zero => rfl
  | succ n ih =>
    cases n with
    | zero => rfl
    | succ m =>
      simp only [runTerminations] at *
      rw [ih]
      simp [stageTermination]

/-- Claim C2.  For every stage, across an entire run of k worker
exits: exactly the first stageTermination call claims the one-capacity
latch, so the output channel is closed and metrics stop is called at
most once (exactly once as soon as any worker exits), and every call,
claimant or not, performs exactly one wg.Done. -/
theorem single_closer_and_wg_done :
    (∀ k : Nat, (runTerminations k).closeCalls = min k 1 ∧
      (runTerminations k).stopCalls = min k 1 ∧
      (runTerminations k).wgDones = k) ∧
    (∀ st : TermState, (stageTermination st).wgDones = st.wgDones + 1) := by
  constructor
  · intro k
    rw [runTerminations_eq]
    cases k with
    | zero => simp [initTermState]
    | succ n =>
      have h1 : min (n + 1) 1 = 1 := by omega
      simp [h1]
  · intro st
    by_cases h : st.semFree <;> simp [stageTermination, h]

/-- One completed generator iteration keeps output + dropped equal to
generated, except that a panicking ItemGenerator adds a drop without a
generated count; it never touches processed. -/
theorem handleGeneration_balance (g : Option GenOutcome)
    (dropOnBp cancelled slotFree pick : Bool) (sched : List Ev) (d : Delta)
    (h : handleGeneration g dropOnBp cancelled slotFree pick sched = some d) :
    d.output + d.dropped = d.generated + panicCount g ∧
    d.processed = 0 := by
  cases g with
  | none =>
    simp only [handleGeneration, Option.some_inj] at h
    subst h
    exact ⟨rfl, rfl⟩
  | some o =>
    cases o with
    | panics =>
      simp only [handleGeneration, Option.some_inj] at h
      subst h
      exact ⟨rfl, rfl⟩
    | value it =>
      cases hs : sendOutput dropOnBp cancelled slotFree pick sched with
      | output =>
        simp only [handleGeneration, hs, Option.some_inj] at h
        subst h; exact ⟨rfl, rfl⟩
      | dropped =>
        simp only [handleGeneration, hs, Option.some_inj] at h
        subst h; exact ⟨rfl, rfl⟩
      | blocked =>
        simp [handleGeneration, hs] at h

/-- Claim C3 counterexample.  A single generator iteration in which
the user GeneratorFn panics completes with generated = 0, output = 0,
dropped = 1: the drop is recorded but no generated count is, so
generated equals output + dropped fails. -/
theorem generator_panic_breaks_balance :
    runGenerator false [⟨some GenOutcome.panics, false, false, false, []⟩] =
      some ⟨0, 0, 0, 1⟩ ∧
    ¬ (Delta.mk 0 0 0 1).generated =
        (Delta.mk 0 0 0 1).output + (Delta.mk 0 0 0 1).dropped := by
  exact ⟨rfl, by decide⟩

/-- Claim C3 (amended).  For every completed generator run,
output + dropped = generated + number of GeneratorFn panics, and in
particular generated = output + dropped whenever GeneratorFn never
panicked; a panic is accounted as a drop and the loop continues. -/
theorem generator_accounting :
    ∀ (dropOnBp : Bool) (envs : List GenEnv) (d : Delta),
      runGenerator dropOnBp envs = some d →
      d.output + d.dropped = d.generated + countPanics envs ∧
      (countPanics envs = 0 → d.generated = d.output + d.dropped) := by
  intro dropOnBp envs
  induction envs with
  | nil =>
    intro d h
    simp only [runGenerator, Option.some_inj] at h
    subst h
    simp [countPanics]
  | cons e rest ih =>
    intro d h
    simp only [runGenerator] at h
    cases h1 : handleGeneration e.gen dropOnBp e.cancelled e.slotFree e.pick
        e.sched with
    | none => rw [h1] at h; exact absurd h (by simp)
    | some d1 =>
      cases h2 : runGenerator dropOnBp rest with
      | none => rw [h1, h2] at h; exact absurd h (by simp)
      | some ds =>
        rw [h1, h2] at h
        simp only [Option.some_inj] at h
        subst h
        obtain ⟨hb, _⟩ := handleGeneration_balance e.gen dropOnBp e.cancelled
          e.slotFree e.pick e.sched d1 h1
        obtain ⟨hr, _⟩ := ih ds h2
        have hcount : countPanics (e :: rest) =
            panicCount e.gen + countPanics rest := by
          simp [countPanics]
        constructor
        · simp only [Delta.plus, hcount]
          omega
        · intro hz
          rw [hcount] at hz
          simp only [Delta.plus, hcount]
          omega

/-- Witness for the amended Claim C3 at a concrete two-iteration run:
one successful generation sent to a free slot, then one GeneratorFn
panic; totals are generated 1, output 1, dropped 1, one panic. -/
theorem generator_accounting_witness :
    (⟨1, 0, 1, 1⟩ : Delta).output + (⟨1, 0, 1, 1⟩ : Delta).dropped =
      (⟨1, 0, 1, 1⟩ : Delta).generated +
        countPanics [⟨some (GenOutcome.value 3), false, true, false, []⟩,
          ⟨some GenOutcome.panics, false, false, false, []⟩] ∧
    (countPanics [⟨some (GenOutcome.value 3), false, true, false, []⟩,
        ⟨some GenOutcome.panics, false, false, false, []⟩] = 0 →
      (⟨1, 0, 1, 1⟩ : Delta).generated =
        (⟨1, 0, 1, 1⟩ : Delta).output + (⟨1, 0, 1, 1⟩ : Delta).dropped) :=
  generator_accounting false
    [⟨some (GenOutcome.value 3), false, true, false, []⟩,
     ⟨some GenOutcome.panics, false, false, false, []⟩] ⟨1, 0, 1, 1⟩ rfl

/-- Cancellation events in front of the schedule do not affect the
bare blocking send. -/
theorem blockingSend_skips_cancels :
    ∀ (cs rest : List Ev), (∀ e ∈ cs, e = Ev.cancel) →
      blockingSend (cs ++ rest) = blockingSend rest := by
  intro cs
  induction cs with
  | nil => intro rest _; rfl
  | cons a l ih =>
    intro rest h
    have ha : a = Ev.cancel := h a (by simp)
    subst ha
    simp only [List.cons_append, blockingSend]
    exact ih rest (fun e he => h e (by simp [he]))

/-- Claim C4 counterexample.  With DropOnBackpressure = false, no free
slot and no cancellation at entry, and a schedule in which cancellation
fires before a slot opens, the code still sends the item and records
output, while the claimed simultaneous wait would record dropped. -/
theorem blocking_send_ignores_cancel :
    sendOutput false false false false [Ev.cancel, Ev.slotOpens] ≠
      specBlockingSend [Ev.cancel, Ev.slotOpens] ∧
    sendOutput false false false false [Ev.cancel, Ev.slotOpens] =
      SendResult.output ∧
    specBlockingSend [Ev.cancel, Ev.slotOpens] = SendResult.dropped := by
  decide

/-- Claim C4 (amended).  With DropOnBackpressure = false and no
immediately free slot: if cancellation has already fired when the
select runs, the item is dropped; otherwise the producer falls into a
bare blocking send that waits only on the slot and on channel closure —
any number of cancellation firings are ignored, a slot opening sends
the item and records output, and closure of the channel makes the send
raise, which is recovered and recorded as dropped. -/
theorem blocking_send_behaviour :
    ∀ (cs sched : List Ev) (pick : Bool),
      (∀ e ∈ cs, e = Ev.cancel) →
      sendOutput false true false pick sched = SendResult.dropped ∧
      sendOutput false false false pick (cs ++ Ev.slotOpens :: sched) =
        SendResult.output ∧
      sendOutput false false false pick (cs ++ Ev.chanCloses :: sched) =
        SendResult.dropped := by
  intro cs sched pick hcs
  refine ⟨rfl, ?_, ?_⟩
  · show blockingSend (cs ++ Ev.slotOpens :: sched) = SendResult.output
    rw [blockingSend_skips_cancels cs _ hcs]
    rfl
  · show blockingSend (cs ++ Ev.chanCloses :: sched) = SendResult.dropped
    rw [blockingSend_skips_cancels cs _ hcs]
    rfl

/-- Witness for the amended Claim C4 at a concrete schedule with one
cancellation event in front. -/
theorem blocking_send_behaviour_witness :
    sendOutput false true false false [] = SendResult.dropped ∧
    sendOutput false false false false ([Ev.cancel] ++ [Ev.slotOpens]) =
      SendResult.output ∧
    sendOutput false false false false ([Ev.cancel] ++ [Ev.chanCloses]) =
      SendResult.dropped :=
  blocking_send_behaviour [Ev.cancel] [] false (by decide)

/-- Claim C5.  For an interior worker and a received item whose
handling completes, the processed counter is bumped by one exactly when
the retried user work returned a success, whatever the result value;
when all attempts failed, the delta is exactly one drop and processed
is untouched. -/
theorem processed_iff_success :
    ∀ (dropOnBp cancelled slotFree pick : Bool) (sched : List Ev)
      (wf : WorkerFn) (retryCount : Int) (fuel : Nat) (d : Delta),
      workerItem false dropOnBp cancelled slotFree pick sched wf retryCount
        fuel = some d →
      (d.processed = 1 ↔
        ∃ a, processItem wf retryCount fuel = some (Except.ok a)) ∧
      (∀ e, processItem wf retryCount fuel = some (Except.error e) →
        d = ⟨0, 0, 0, 1⟩) := by
  intro dropOnBp cancelled slotFree pick sched wf retryCount fuel d h
  cases hp : processItem wf retryCount fuel with
  | none => simp [workerItem, hp] at h
  | some r =>
    cases r with
    | error e0 =>
      simp [workerItem, hp] at h
      subst h
      refine ⟨by simp, fun e _ => rfl⟩
    | ok a0 =>
      cases hs : sendOutput dropOnBp cancelled slotFree pick sched with
      | output =>
        simp [workerItem, hp, hs] at h
        subst h
        refine ⟨by simp, fun e he => by simp at he⟩
      | dropped =>
        simp [workerItem, hp, hs] at h
        subst h
        refine ⟨by simp, fun e he => by simp at he⟩
      | blocked =>
        simp [workerItem, hp, hs] at h

/-- Witness for Claim C5 at a concrete interior worker: an always
succeeding user function with a free output slot. -/
theorem processed_iff_success_witness :
    (((⟨0, 1, 1, 0⟩ : Delta).processed = 1) ↔
      ∃ a, processItem wfOk 0 1 = some (Except.ok a)) ∧
    (∀ e, processItem wfOk 0 1 = some (Except.error e) →
      (⟨0, 1, 1, 0⟩ : Delta) = ⟨0, 0, 0, 1⟩) :=
  processed_iff_success false false true false [] wfOk 0 1 ⟨0, 1, 1, 0⟩ rfl

/-- Claim C6 counterexample.  Two stop calls at times 1 and 2: the
stored stoppedAt after the second call is 2, not the first call time 1,
so a subsequent call does move stoppedAt. -/
theorem stop_not_idempotent :
    (MetricsState.stop (MetricsState.stop ⟨0, 0, 0, 0, none, 0⟩ 1) 2).endTime =
      some (2 : ℚ) ∧
    (MetricsState.stop ⟨0, 0, 0, 0, none, 0⟩ 1).endTime = some (1 : ℚ) ∧
    some (2 : ℚ) ≠ some (1 : ℚ) := by
  refine ⟨rfl, rfl, ?_⟩
  intro hc
  have : (2 : ℚ) = 1 := Option.some_inj.mp hc
  norm_num at this

/-- Claim C6 (amended).  stop() is last-write-wins, not idempotent:
every call unconditionally overwrites stoppedAt with the current time,
so composing two stops equals the later stop alone and a single stop at
time t stores exactly t.  (The termination latch makes the engine call
it at most once per stage, so the stored value in a run is still the
first and only call time.) -/
theorem stop_last_write_wins :
    ∀ (m : MetricsState) (t1 t2 : ℚ),
      MetricsState.stop (MetricsState.stop m t1) t2 = MetricsState.stop m t2 ∧
      (MetricsState.stop m t1).endTime = some t1 := by
  intro m t1 t2
  exact ⟨rfl, rfl⟩

/-- Claim C7.  Start returns the configuration error whenever fewer
than three stages were added, and in that case no worker has been
spawned. -/
theorem start_fewer_than_three_stages :
    ∀ stages : List StageRec, stages.length < 3 →
      startSim stages = (Except.error ("no stages to run"), 0) := by
  intro stages h
  simp [startSim, h]

/-- Witness for Claim C7: a simulator holding exactly two stages. -/
theorem start_fewer_than_three_stages_witness :
    startSim [⟨("Generator"), sampleConfig⟩, ⟨("Stage-1"), sampleConfig⟩] =
      (Except.error ("no stages to run"), 0) :=
  start_fewer_than_three_stages _ (by decide)

/-- Claim C8.  A final (sink) stage passes validateConfig with no
worker function set (given otherwise valid configuration fields), and
every item a sink worker consumes is recorded as dropped in the sink
metrics, with no other counter touched. -/
theorem sink_validation_and_drop :
    ∀ (name : String) (cfg : StageConfig),
      cfg.hasWorkerFunc = false →
      0 < cfg.routineNum → 0 ≤ cfg.bufferSize → 0 ≤ cfg.retryCount →
      cfg.hasCtx = true → name ≠ "" →
      validateConfig false true name cfg = none ∧
      ∀ (dropOnBp cancelled slotFree pick : Bool) (sched : List Ev)
        (wf : WorkerFn) (retryCount : Int) (fuel : Nat),
        workerItem true dropOnBp cancelled slotFree pick sched wf retryCount
          fuel = some ⟨0, 0, 0, 1⟩ := by
  intro name cfg hw hr hb hrc hctx hname
  constructor
  · have h1 : ¬ cfg.routineNum ≤ 0 := by omega
    have h2 : ¬ cfg.bufferSize < 0 := by omega
    have h3 : ¬ cfg.retryCount < 0 := by omega
    simp [validateConfig, h1, h2, h3, hctx, hname]
  · intro dropOnBp cancelled slotFree pick sched wf retryCount fuel
    rfl

/-- Witness for Claim C8: a concrete sink configuration with no worker
function. -/
theorem sink_validation_and_drop_witness :
    validateConfig false true ("sink") sinkConfig = none ∧
    workerItem true false false false false [] wfOk 0 1 = some ⟨0, 0, 0, 1⟩ := by
  have h := sink_validation_and_drop ("sink") sinkConfig rfl (by decide)
    (by decide) (by decide) rfl (by decide)
  exact ⟨h.1, h.2 false false false false [] wfOk 0 1⟩

/-- Claim C9.  The reported drop_rate is dropped / generated when the
stage generated anything (the generator case; zero when dropped is
zero, which coincides with the quotient), dropped / processed when it
generated nothing but processed something (the interior case), and zero
when the denominator is zero (generated = 0 and processed = 0 yields
the all-zero map). -/
theorem drop_rate_denominators :
    ∀ (m : MetricsState) (now : ℚ),
      (GetStats m now).lookup ("drop_rate") =
        some (StatVal.q
          (if 0 < m.generatedItems then
            (m.droppedItems : ℚ) / (m.generatedItems : ℚ)
          else if 0 < m.processedItems then
            (m.droppedItems : ℚ) / (m.processedItems : ℚ)
          else 0)) := by
  intro m now
  by_cases hg : 0 < m.generatedItems
  · by_cases hd : 0 < m.droppedItems
    · simp [GetStats, getCommons, hg, hd, List.lookup]
    · have hd0 : m.droppedItems = 0 := by omega
      simp [GetStats, getCommons, hg, hd, hd0, List.lookup]
  · by_cases hp : m.processedItems = 0
    · have hp2 : ¬ 0 < m.processedItems := by omega
      simp [GetStats, getEmpty, hg, hp, hp2, List.lookup]
    · have hp2 : 0 < m.processedItems := by omega
      simp [GetStats, getCommons, hg, hp, hp2, List.lookup]

/-- Claim C10.  GetStats picks the reporting shape from the counters,
not the configured role: the returned map has a generated_items entry
exactly when generatedItems > 0, and when both generatedItems and
processedItems are zero it is the all-zero map getEmpty, whatever the
dropped or output counters hold. -/
theorem stats_shape_from_counters :
    ∀ (m : MetricsState) (now : ℚ),
      (((GetStats m now).lookup ("generated_items")).isSome ↔
        0 < m.generatedItems) ∧
      (m.generatedItems = 0 → m.processedItems = 0 →
        GetStats m now = getEmpty) := by
  intro m now
  constructor
  · by_cases hg : 0 < m.generatedItems
    · simp only [hg, iff_true]
      by_cases hd : 0 < m.droppedItems <;>
        simp [GetStats, getCommons, hg, hd, List.lookup]
    · simp only [hg, iff_false]
      by_cases hp : m.processedItems = 0
      · simp [GetStats, getEmpty, hg, hp, List.lookup]
      · simp [GetStats, getCommons, hg, hp, List.lookup]
  · intro h1 h2
    have hg : ¬ 0 < m.generatedItems := by omega
    simp [GetStats, hg, h2]

/-- Witness for Claim C10: a stage that generated and processed
nothing but carries nonzero dropped and output counters still reports
the all-zero map and no generated_items entry. -/
theorem stats_shape_from_counters_witness :
    GetStats mZeroActivity 9 = getEmpty ∧
    ¬ (((GetStats mZeroActivity 9).lookup ("generated_items")).isSome) := by
  have h := stats_shape_from_counters mZeroActivity 9
  refine ⟨h.2 rfl rfl, ?_⟩
  intro hx
  exact absurd (h.1.mp hx) (by decide)

end GoFlow
